import Mathlib

/-!
Verification development for the Candidate persistence core.

The program under study is the Candidate model: a constructor that shapes a
loosely-typed field bag into an entity, and an asynchronous save method that
builds a conditional write payload, routes between an insert (create) and an
update scoped to the entity identity, and normalizes storage-engine errors.

The embedding below translates that code statement by statement:
- JavaScript field values are modelled by JSVal, which distinguishes the
  undefined and null states from string, number and Date values, so that the
  conditional-inclusion rule (strict inequality with undefined) and JavaScript
  truthiness (used by the insert/update routing) are both expressible.
- The write payload is a record whose fields are Option-valued: none means the
  key is absent from the object, some v means the key is present with value v.
- Payload building is transcribed as a chain of state transformers over a
  state holding both the entity (this) and the payload object under
  construction (candidateData), so that absence of mutation of the entity is a
  provable statement rather than a modelling artifact.
- The storage interface (the Prisma client) is an explicit parameter mapping
  the single issued call to a result or a storage error; save records the list
  of calls it issues.
-/

/-- A JavaScript value as it appears in the candidate field bags: undefined,
null, a string, a number, or a Date (represented by its timestamp). -/
inductive JSVal where
  | undef
  | null
  | str (s : String)
  | num (n : Int)
  | date (t : Int)
deriving DecidableEq

/-- JavaScript truthiness of a JSVal: undefined and null are falsy, a string
is truthy iff nonempty, a number is truthy iff nonzero, a Date is truthy. -/
def JSVal.truthy : JSVal → Bool
  | JSVal.undef => false
  | JSVal.null => false
  | JSVal.str s => s != ""
  | JSVal.num n => n != 0
  | JSVal.date _ => true

/-- An education child record of the entity (institution, title, startDate,
endDate), each field a loosely-typed value. -/
structure Education where
  institution : JSVal
  title : JSVal
  startDate : JSVal
  endDate : JSVal
deriving DecidableEq

/-- A work-experience child record of the entity. -/
structure WorkExperience where
  company : JSVal
  position : JSVal
  description : JSVal
  startDate : JSVal
  endDate : JSVal
deriving DecidableEq

/-- A resume child record of the entity. -/
structure Resume where
  filePath : JSVal
  fileType : JSVal
deriving DecidableEq

/-- The loosely-typed field bag passed to the Candidate constructor. Scalar
fields may be undefined (absent); each collection is either absent (none,
covering undefined or null in the source bag) or a list of child records. -/
structure CandidateData where
  id : JSVal
  firstName : JSVal
  lastName : JSVal
  email : JSVal
  phone : JSVal
  address : JSVal
  education : Option (List Education)
  workExperience : Option (List WorkExperience)
  resumes : Option (List Resume)
deriving DecidableEq

/-- The in-memory Candidate entity: identity and scalars are loosely typed
values; the three child collections are always lists (empty is the floor). -/
structure Candidate where
  id : JSVal
  firstName : JSVal
  lastName : JSVal
  email : JSVal
  phone : JSVal
  address : JSVal
  education : List Education
  workExperience : List WorkExperience
  resumes : List Resume
deriving DecidableEq

/-- The Candidate constructor (lines 73-83 of the model): every scalar is
copied verbatim; each collection is copied when supplied and defaulted to the
empty list otherwise (data.education or-else []; a supplied array, empty
included, is truthy in JavaScript and kept as is). -/
def Candidate.construct (data : CandidateData) : Candidate :=
  { id := data.id
    firstName := data.firstName
    lastName := data.lastName
    email := data.email
    phone := data.phone
    address := data.address
    education := data.education.getD []
    workExperience := data.workExperience.getD []
    resumes := data.resumes.getD [] }

/-- One item of the educations nested-create list, exactly the fields the
source map picks out of each education entry. -/
structure EducationCreateItem where
  institution : JSVal
  title : JSVal
  startDate : JSVal
  endDate : JSVal
deriving DecidableEq

/-- One item of the workExperiences nested-create list. -/
structure WorkExperienceCreateItem where
  company : JSVal
  position : JSVal
  description : JSVal
  startDate : JSVal
  endDate : JSVal
deriving DecidableEq

/-- One item of the resumes nested-create list. -/
structure ResumeCreateItem where
  filePath : JSVal
  fileType : JSVal
deriving DecidableEq

/-- The per-item mapping of the educations nested-create block (the arrow
function of the education map in save). -/
def mapEducationItem (edu : Education) : EducationCreateItem :=
  { institution := edu.institution
    title := edu.title
    startDate := edu.startDate
    endDate := edu.endDate }

/-- The per-item mapping of the workExperiences nested-create block. -/
def mapWorkExperienceItem (exp : WorkExperience) : WorkExperienceCreateItem :=
  { company := exp.company
    position := exp.position
    description := exp.description
    startDate := exp.startDate
    endDate := exp.endDate }

/-- The per-item mapping of the resumes nested-create block. -/
def mapResumeItem (resume : Resume) : ResumeCreateItem :=
  { filePath := resume.filePath
    fileType := resume.fileType }

/-- A nested-create directive: the object with the single key create wrapping
the ordered list of per-item field mappings. -/
structure NestedCreate (α : Type) where
  create : List α
deriving DecidableEq

/-- The write payload object (candidateData in save). Each field is an Option:
none means the key is absent from the object, some v means the key is present
with value v (so some JSVal.null is a key explicitly set to null). -/
structure CandidateWriteData where
  firstName : Option JSVal
  lastName : Option JSVal
  email : Option JSVal
  phone : Option JSVal
  address : Option JSVal
  educations : Option (NestedCreate EducationCreateItem)
  workExperiences : Option (NestedCreate WorkExperienceCreateItem)
  resumes : Option (NestedCreate ResumeCreateItem)
deriving DecidableEq

/-- The empty object literal that starts the payload build (line 86). -/
def emptyWriteData : CandidateWriteData :=
  { firstName := none
    lastName := none
    email := none
    phone := none
    address := none
    educations := none
    workExperiences := none
    resumes := none }

/-- The mutable state of the payload-building statements: the entity (this)
together with the payload object under construction (candidateData). Each
statement of lines 88-124 is a transformer of this state, which makes the
claim that the entity itself is never written a provable statement. -/
@[ext] structure SaveState where
  self : Candidate
  candidateData : CandidateWriteData
deriving DecidableEq

/-- Line 88: if this.firstName is not undefined, set candidateData.firstName. -/
def assignFirstName (s : SaveState) : SaveState :=
  if s.self.firstName ≠ JSVal.undef then
    { s with candidateData := { s.candidateData with firstName := some s.self.firstName } }
  else s

/-- Line 89: conditional assignment of candidateData.lastName. -/
def assignLastName (s : SaveState) : SaveState :=
  if s.self.lastName ≠ JSVal.undef then
    { s with candidateData := { s.candidateData with lastName := some s.self.lastName } }
  else s

/-- Line 90: conditional assignment of candidateData.email. -/
def assignEmail (s : SaveState) : SaveState :=
  if s.self.email ≠ JSVal.undef then
    { s with candidateData := { s.candidateData with email := some s.self.email } }
  else s

/-- Line 91: conditional assignment of candidateData.phone. -/
def assignPhone (s : SaveState) : SaveState :=
  if s.self.phone ≠ JSVal.undef then
    { s with candidateData := { s.candidateData with phone := some s.self.phone } }
  else s

/-- Line 92: conditional assignment of candidateData.address. -/
def assignAddress (s : SaveState) : SaveState :=
  if s.self.address ≠ JSVal.undef then
    { s with candidateData := { s.candidateData with address := some s.self.address } }
  else s

/-- Lines 94-103: if the education collection is non-empty, set the educations
key to a create directive mapping each entry through the per-item mapping. -/
def assignEducations (s : SaveState) : SaveState :=
  if s.self.education.length > 0 then
    { s with candidateData := { s.candidateData with
        educations := some { create := s.self.education.map mapEducationItem } } }
  else s

/-- Lines 105-115: conditional workExperiences nested-create block. -/
def assignWorkExperiences (s : SaveState) : SaveState :=
  if s.self.workExperience.length > 0 then
    { s with candidateData := { s.candidateData with
        workExperiences := some { create := s.self.workExperience.map mapWorkExperienceItem } } }
  else s

/-- Lines 117-124: conditional resumes nested-create block. -/
def assignResumes (s : SaveState) : SaveState :=
  if s.self.resumes.length > 0 then
    { s with candidateData := { s.candidateData with
        resumes := some { create := s.self.resumes.map mapResumeItem } } }
  else s

/-- The payload-building statement sequence of lines 86-124, run from the
empty payload object. -/
def buildPayloadState (c : Candidate) : SaveState :=
  assignResumes (assignWorkExperiences (assignEducations (assignAddress
    (assignPhone (assignEmail (assignLastName (assignFirstName
      { self := c, candidateData := emptyWriteData })))))))

/-- The payload save hands to the storage call: the candidateData component of
the final build state. -/
def Candidate.buildData (c : Candidate) : CandidateWriteData :=
  (buildPayloadState c).candidateData

/-- A storage-engine (Prisma) error as discriminated by save: a known request
error carrying a code, a validation error, a connection/initialization error,
or any other error carrying an arbitrary name. -/
inductive PrismaError where
  | known (message : String) (code : String)
  | validation (message : String)
  | initialization (message : String) (errorCode : String)
  | generic (name : String) (message : String)
deriving DecidableEq

/-- The name property of the error object, as tested by the catch blocks. -/
def PrismaError.name : PrismaError → String
  | PrismaError.known _ _ => "PrismaClientKnownRequestError"
  | PrismaError.validation _ => "PrismaClientValidationError"
  | PrismaError.initialization _ _ => "PrismaClientInitializationError"
  | PrismaError.generic n _ => n

/-- The code property of the error object: only known request errors carry
one (none models an undefined property). -/
def PrismaError.code : PrismaError → Option String
  | PrismaError.known _ c => some c
  | _ => none

/-- The message property of the error object. -/
def PrismaError.message : PrismaError → String
  | PrismaError.known m _ => m
  | PrismaError.validation m => m
  | PrismaError.initialization m _ => m
  | PrismaError.generic _ m => m

/-- The fixed user-facing message thrown on a connection/initialization
failure (lines 134 and 149). -/
def connectionErrorMessage : String :=
  "No se pudo conectar con la base de datos. Por favor, asegúrese de que el servidor de base de datos esté en ejecución."

/-- The fixed user-facing message thrown when an update targets a missing
record (line 136). -/
def recordNotFoundMessage : String :=
  "No se pudo encontrar el registro del candidato con el ID proporcionado."

/-- The record returned by the storage layer on success. -/
structure StoredRecord where
  id : JSVal
  firstName : JSVal
  lastName : JSVal
  email : JSVal
  phone : JSVal
  address : JSVal
deriving DecidableEq

/-- A call issued to the storage interface: a create with a payload, or an
update scoped by the where clause to an identity, with a payload. -/
inductive StorageCall where
  | create (data : CandidateWriteData)
  | update (id : JSVal) (data : CandidateWriteData)
deriving DecidableEq

/-- True iff the call is an update call. -/
def StorageCall.isUpdate : StorageCall → Bool
  | StorageCall.update _ _ => true
  | StorageCall.create _ => false

/-- True iff the call is a create (insert) call. -/
def StorageCall.isCreate : StorageCall → Bool
  | StorageCall.create _ => true
  | StorageCall.update _ _ => false

/-- Number of update calls in a call trace. -/
def countUpdateCalls (l : List StorageCall) : Nat :=
  (l.filter StorageCall.isUpdate).length

/-- Number of create (insert) calls in a call trace. -/
def countCreateCalls (l : List StorageCall) : Nat :=
  (l.filter StorageCall.isCreate).length

/-- The error save rejects with: either a fresh plain Error carrying one of
the fixed normalized messages, or the original storage error rethrown
unchanged. -/
inductive SaveError where
  | normalized (message : String)
  | original (e : PrismaError)
deriving DecidableEq

/-- The outcome of a save invocation: the resolved or rejected result, the
list of storage calls issued, and the final payload-building state (whose
self component is the entity as left behind by the statement sequence). -/
structure SaveResult where
  post : SaveState
  outcome : Except SaveError StoredRecord
  calls : List StorageCall

/-- The save method (lines 85-155): build the payload, route on the
truthiness of this.id, issue the single storage call, and normalize errors.
On the update path a connection/initialization error becomes the fixed
connection message, a P2025 code becomes the fixed record-not-found message,
and anything else is rethrown unchanged; on the create path only the
connection/initialization case is normalized. The storage interface is an
explicit parameter giving the result of each possible call. -/
def Candidate.save (c : Candidate)
    (storage : StorageCall → Except PrismaError StoredRecord) : SaveResult :=
  if c.id.truthy then
    match storage (StorageCall.update c.id c.buildData) with
    | Except.ok r =>
      { post := buildPayloadState c, outcome := Except.ok r,
        calls := [StorageCall.update c.id c.buildData] }
    | Except.error e =>
      if e.name = "PrismaClientInitializationError" then
        { post := buildPayloadState c,
          outcome := Except.error (SaveError.normalized connectionErrorMessage),
          calls := [StorageCall.update c.id c.buildData] }
      else if e.code = some "P2025" then
        { post := buildPayloadState c,
          outcome := Except.error (SaveError.normalized recordNotFoundMessage),
          calls := [StorageCall.update c.id c.buildData] }
      else
        { post := buildPayloadState c,
          outcome := Except.error (SaveError.original e),
          calls := [StorageCall.update c.id c.buildData] }
  else
    match storage (StorageCall.create c.buildData) with
    | Except.ok r =>
      { post := buildPayloadState c, outcome := Except.ok r,
        calls := [StorageCall.create c.buildData] }
    | Except.error e =>
      if e.name = "PrismaClientInitializationError" then
        { post := buildPayloadState c,
          outcome := Except.error (SaveError.normalized connectionErrorMessage),
          calls := [StorageCall.create c.buildData] }
      else
        { post := buildPayloadState c,
          outcome := Except.error (SaveError.original e),
          calls := [StorageCall.create c.buildData] }


/-- The statement assignFirstName leaves the entity component untouched. -/
@[simp] theorem assignFirstName_self (s : SaveState) : (assignFirstName s).self = s.self := by
  unfold assignFirstName; split <;> rfl

/-- The statement assignFirstName only conditionally overwrites the firstName key. -/
@[simp] theorem assignFirstName_data (s : SaveState) :
    (assignFirstName s).candidateData =
      { s.candidateData with firstName :=
          if s.self.firstName ≠ JSVal.undef then some s.self.firstName else s.candidateData.firstName } := by
  unfold assignFirstName; split <;> rfl

/-- The statement assignLastName leaves the entity component untouched. -/
@[simp] theorem assignLastName_self (s : SaveState) : (assignLastName s).self = s.self := by
  unfold assignLastName; split <;> rfl

/-- The statement assignLastName only conditionally overwrites the lastName key. -/
@[simp] theorem assignLastName_data (s : SaveState) :
    (assignLastName s).candidateData =
      { s.candidateData with lastName :=
          if s.self.lastName ≠ JSVal.undef then some s.self.lastName else s.candidateData.lastName } := by
  unfold assignLastName; split <;> rfl

/-- The statement assignEmail leaves the entity component untouched. -/
@[simp] theorem assignEmail_self (s : SaveState) : (assignEmail s).self = s.self := by
  unfold assignEmail; split <;> rfl

/-- The statement assignEmail only conditionally overwrites the email key. -/
@[simp] theorem assignEmail_data (s : SaveState) :
    (assignEmail s).candidateData =
      { s.candidateData with email :=
          if s.self.email ≠ JSVal.undef then some s.self.email else s.candidateData.email } := by
  unfold assignEmail; split <;> rfl

/-- The statement assignPhone leaves the entity component untouched. -/
@[simp] theorem assignPhone_self (s : SaveState) : (assignPhone s).self = s.self := by
  unfold assignPhone; split <;> rfl

/-- The statement assignPhone only conditionally overwrites the phone key. -/
@[simp] theorem assignPhone_data (s : SaveState) :
    (assignPhone s).candidateData =
      { s.candidateData with phone :=
          if s.self.phone ≠ JSVal.undef then some s.self.phone else s.candidateData.phone } := by
  unfold assignPhone; split <;> rfl

/-- The statement assignAddress leaves the entity component untouched. -/
@[simp] theorem assignAddress_self (s : SaveState) : (assignAddress s).self = s.self := by
  unfold assignAddress; split <;> rfl

/-- The statement assignAddress only conditionally overwrites the address key. -/
@[simp] theorem assignAddress_data (s : SaveState) :
    (assignAddress s).candidateData =
      { s.candidateData with address :=
          if s.self.address ≠ JSVal.undef then some s.self.address else s.candidateData.address } := by
  unfold assignAddress; split <;> rfl

/-- The statement assignEducations leaves the entity component untouched. -/
@[simp] theorem assignEducations_self (s : SaveState) : (assignEducations s).self = s.self := by
  unfold assignEducations; split <;> rfl

/-- The statement assignEducations only conditionally overwrites the educations key. -/
@[simp] theorem assignEducations_data (s : SaveState) :
    (assignEducations s).candidateData =
      { s.candidateData with educations :=
          if s.self.education.length > 0 then some { create := s.self.education.map mapEducationItem } else s.candidateData.educations } := by
  unfold assignEducations; split <;> rfl

/-- The statement assignWorkExperiences leaves the entity component untouched. -/
@[simp] theorem assignWorkExperiences_self (s : SaveState) : (assignWorkExperiences s).self = s.self := by
  unfold assignWorkExperiences; split <;> rfl

/-- The statement assignWorkExperiences only conditionally overwrites the workExperiences key. -/
@[simp] theorem assignWorkExperiences_data (s : SaveState) :
    (assignWorkExperiences s).candidateData =
      { s.candidateData with workExperiences :=
          if s.self.workExperience.length > 0 then some { create := s.self.workExperience.map mapWorkExperienceItem } else s.candidateData.workExperiences } := by
  unfold assignWorkExperiences; split <;> rfl

/-- The statement assignResumes leaves the entity component untouched. -/
@[simp] theorem assignResumes_self (s : SaveState) : (assignResumes s).self = s.self := by
  unfold assignResumes; split <;> rfl

/-- The statement assignResumes only conditionally overwrites the resumes key. -/
@[simp] theorem assignResumes_data (s : SaveState) :
    (assignResumes s).candidateData =
      { s.candidateData with resumes :=
          if s.self.resumes.length > 0 then some { create := s.self.resumes.map mapResumeItem } else s.candidateData.resumes } := by
  unfold assignResumes; split <;> rfl

/-- Flattening of the payload-building statement sequence: the final state
keeps the entity unchanged, and each payload key is governed by its own
condition on the corresponding entity field. -/
theorem buildPayloadState_eq (c : Candidate) :
    buildPayloadState c =
      { self := c
        candidateData :=
          { firstName := if c.firstName ≠ JSVal.undef then some c.firstName else none
            lastName := if c.lastName ≠ JSVal.undef then some c.lastName else none
            email := if c.email ≠ JSVal.undef then some c.email else none
            phone := if c.phone ≠ JSVal.undef then some c.phone else none
            address := if c.address ≠ JSVal.undef then some c.address else none
            educations :=
              if c.education.length > 0 then
                some { create := c.education.map mapEducationItem } else none
            workExperiences :=
              if c.workExperience.length > 0 then
                some { create := c.workExperience.map mapWorkExperienceItem } else none
            resumes :=
              if c.resumes.length > 0 then
                some { create := c.resumes.map mapResumeItem } else none } } := by
  unfold buildPayloadState
  refine SaveState.ext ?_ ?_
  · simp
  · simp [emptyWriteData]

/-- Flattened form of the payload handed to the storage call. -/
theorem buildData_eq (c : Candidate) :
    c.buildData =
      { firstName := if c.firstName ≠ JSVal.undef then some c.firstName else none
        lastName := if c.lastName ≠ JSVal.undef then some c.lastName else none
        email := if c.email ≠ JSVal.undef then some c.email else none
        phone := if c.phone ≠ JSVal.undef then some c.phone else none
        address := if c.address ≠ JSVal.undef then some c.address else none
        educations :=
          if c.education.length > 0 then
            some { create := c.education.map mapEducationItem } else none
        workExperiences :=
          if c.workExperience.length > 0 then
            some { create := c.workExperience.map mapWorkExperienceItem } else none
        resumes :=
          if c.resumes.length > 0 then
            some { create := c.resumes.map mapResumeItem } else none } := by
  unfold Candidate.buildData
  rw [buildPayloadState_eq]

/-- Helper: the trace of storage calls issued by save is always the single
routed call. -/
theorem save_calls_eq (c : Candidate)
    (storage : StorageCall → Except PrismaError StoredRecord) :
    (c.save storage).calls =
      [if c.id.truthy then StorageCall.update c.id c.buildData
       else StorageCall.create c.buildData] := by
  unfold Candidate.save
  by_cases h : c.id.truthy
  · simp only [h, if_true]
    cases hs : storage (StorageCall.update c.id c.buildData) <;> simp only [hs]
    split_ifs <;> rfl
  · simp only [h, Bool.false_eq_true, if_false]
    cases hs : storage (StorageCall.create c.buildData) <;> simp only [hs]
    split_ifs <;> rfl

set_option maxHeartbeats 1000000 in
/-- Helper: the post state of save is the final payload-building state, for
every routing and every storage outcome. -/
theorem save_post_eq (c : Candidate)
    (storage : StorageCall → Except PrismaError StoredRecord) :
    (c.save storage).post = buildPayloadState c := by
  unfold Candidate.save
  by_cases h : c.id.truthy
  · simp only [h, if_true]
    cases hs : storage (StorageCall.update c.id c.buildData) <;> simp only [hs]
    split_ifs <;> rfl
  · simp only [h, Bool.false_eq_true, if_false]
    cases hs : storage (StorageCall.create c.buildData) <;> simp only [hs]
    split_ifs <;> rfl

/-- Helper: outcome of save on the update path when the storage call rejects:
the error is discriminated first on the initialization name, then on the
P2025 code, and otherwise rethrown as is. -/
theorem save_update_error_outcome (c : Candidate)
    (storage : StorageCall → Except PrismaError StoredRecord) (e : PrismaError)
    (hid : c.id.truthy = true)
    (hs : storage (StorageCall.update c.id c.buildData) = Except.error e) :
    (c.save storage).outcome =
      if e.name = "PrismaClientInitializationError" then
        Except.error (SaveError.normalized connectionErrorMessage)
      else if e.code = some "P2025" then
        Except.error (SaveError.normalized recordNotFoundMessage)
      else
        Except.error (SaveError.original e) := by
  unfold Candidate.save
  simp only [hid, if_true, hs]
  split_ifs <;> rfl

/-- Helper: outcome of save on the create path when the storage call rejects:
only the initialization name is discriminated; everything else is rethrown. -/
theorem save_create_error_outcome (c : Candidate)
    (storage : StorageCall → Except PrismaError StoredRecord) (e : PrismaError)
    (hid : c.id.truthy = false)
    (hs : storage (StorageCall.create c.buildData) = Except.error e) :
    (c.save storage).outcome =
      if e.name = "PrismaClientInitializationError" then
        Except.error (SaveError.normalized connectionErrorMessage)
      else
        Except.error (SaveError.original e) := by
  unfold Candidate.save
  simp only [hid, Bool.false_eq_true, if_false, hs]
  split_ifs <;> rfl

/-- The complete-candidate education fixture of the test data factory. -/
def eduHarvard : Education :=
  { institution := JSVal.str "Harvard University"
    title := JSVal.str "Bachelor of Science in Computer Science"
    startDate := JSVal.date 20150901
    endDate := JSVal.date 20190601 }

/-- The complete-candidate work-experience fixture. -/
def expTechCorp : WorkExperience :=
  { company := JSVal.str "Tech Corp"
    position := JSVal.str "Software Engineer"
    description := JSVal.str "Developed web applications"
    startDate := JSVal.date 20190701
    endDate := JSVal.date 20231231 }

/-- The complete-candidate resume fixture. -/
def resumeJohn : Resume :=
  { filePath := JSVal.str "/uploads/resume_john_doe.pdf"
    fileType := JSVal.str "application/pdf" }

/-- A complete candidate without identity (insert path). -/
def candJohn : Candidate :=
  { id := JSVal.undef
    firstName := JSVal.str "John"
    lastName := JSVal.str "Doe"
    email := JSVal.str "john.doe@example.com"
    phone := JSVal.str "+1234567890"
    address := JSVal.str "123 Main St, City, Country"
    education := [eduHarvard]
    workExperience := [expTechCorp]
    resumes := [resumeJohn] }

/-- A minimal candidate: only the three required scalars are set. -/
def candJane : Candidate :=
  { id := JSVal.undef
    firstName := JSVal.str "Jane"
    lastName := JSVal.str "Smith"
    email := JSVal.str "jane.smith@example.com"
    phone := JSVal.undef
    address := JSVal.undef
    education := []
    workExperience := []
    resumes := [] }

/-- A candidate with the existing identity 42 (update path). -/
def cand42 : Candidate := { candJohn with id := JSVal.num 42 }

/-- A candidate whose identity is the integer 0: present (not undefined) but
falsy in JavaScript. -/
def candZero : Candidate := { candJohn with id := JSVal.num 0 }

/-- A candidate whose optional contact scalars are explicitly null. -/
def candNullContact : Candidate :=
  { candJane with phone := JSVal.null, address := JSVal.null }

/-- A stored record as the storage layer would return it. -/
def recordJohn : StoredRecord :=
  { id := JSVal.num 1
    firstName := JSVal.str "John"
    lastName := JSVal.str "Doe"
    email := JSVal.str "john.doe@example.com"
    phone := JSVal.null
    address := JSVal.null }

/-- A storage interface that resolves every call. -/
def storageOk : StorageCall → Except PrismaError StoredRecord :=
  fun _ => Except.ok recordJohn

/-- A storage interface that rejects every call with a
connection/initialization failure (code P1001). -/
def storageInitFail : StorageCall → Except PrismaError StoredRecord :=
  fun _ => Except.error (PrismaError.initialization "Cannot reach database server" "P1001")

/-- A storage interface that rejects every call with a uniqueness-constraint
violation (known request error, code P2002). -/
def storageDuplicateEmail : StorageCall → Except PrismaError StoredRecord :=
  fun _ => Except.error
    (PrismaError.known "Unique constraint failed on the fields: email" "P2002")

/-- A storage interface that rejects every call with a record-not-found known
request error (code P2025). -/
def storageNotFound : StorageCall → Except PrismaError StoredRecord :=
  fun _ => Except.error (PrismaError.known "Record to update not found." "P2025")

/-- C1 counterexample: the entity candZero carries the identity 0 — present in
the sense the specification uses (strictly unequal to undefined) — yet save
issues one insert (create) call and zero update calls, because the source
routes on JavaScript truthiness of this.id rather than on presence. -/
theorem claim1_zero_identity_counterexample :
    candZero.id ≠ JSVal.undef ∧
    (candZero.save storageOk).calls = [StorageCall.create candZero.buildData] ∧
    countUpdateCalls (candZero.save storageOk).calls = 0 ∧
    countCreateCalls (candZero.save storageOk).calls = 1 := by
  refine ⟨by decide, ?_, ?_, ?_⟩ <;> decide

/-- C1 (amended): for every Entity, save performs exactly one storage call; if
the identity is truthy (e.g. a nonzero integer) the call is a single update
scoped to that identity with the built payload, and if the identity is absent
or falsy (undefined, null, 0 or the empty string) the call is a single insert
with the built payload. -/
theorem claim1_single_call_routing (c : Candidate)
    (storage : StorageCall → Except PrismaError StoredRecord) :
    (c.save storage).calls =
      [if c.id.truthy then StorageCall.update c.id c.buildData
       else StorageCall.create c.buildData] :=
  save_calls_eq c storage

/-- C2: an empty child collection contributes no nested-create key to the
built payload, and a non-empty child collection contributes a create directive
whose list is the order-preserving image of the collection under the per-item
field mapping (hence exactly one item per source item, in the same order, with
matching field values). -/
theorem claim2_nested_create_blocks (c : Candidate) :
    ((c.buildData).educations = none ↔ c.education = []) ∧
    (c.education ≠ [] →
      (c.buildData).educations = some { create := c.education.map mapEducationItem }) ∧
    ((c.buildData).workExperiences = none ↔ c.workExperience = []) ∧
    (c.workExperience ≠ [] →
      (c.buildData).workExperiences =
        some { create := c.workExperience.map mapWorkExperienceItem }) ∧
    ((c.buildData).resumes = none ↔ c.resumes = []) ∧
    (c.resumes ≠ [] →
      (c.buildData).resumes = some { create := c.resumes.map mapResumeItem }) := by
  rw [buildData_eq]
  refine ⟨?_, ?_, ?_, ?_, ?_, ?_⟩
  · by_cases h : c.education = []
    · simp [h]
    · simp [h, List.length_pos.mpr h]
  · intro h
    simp [List.length_pos.mpr h]
  · by_cases h : c.workExperience = []
    · simp [h]
    · simp [h, List.length_pos.mpr h]
  · intro h
    simp [List.length_pos.mpr h]
  · by_cases h : c.resumes = []
    · simp [h]
    · simp [h, List.length_pos.mpr h]
  · intro h
    simp [List.length_pos.mpr h]

/-- C2 witness: the complete candidate has a non-empty education collection
and its payload carries the educations create directive with the mapped item. -/
theorem claim2_nested_create_blocks_witness :
    candJohn.education ≠ [] ∧
    (candJohn.buildData).educations = some { create := [mapEducationItem eduHarvard] } :=
  ⟨by decide, (claim2_nested_create_blocks candJohn).2.1 (by decide)⟩

/-- C3: each of the five scalar keys appears in the built payload exactly when
the corresponding entity field is not undefined, and then carries that exact
value; a never-set field yields no key at all (in particular not a null
value). -/
theorem claim3_conditional_scalar_inclusion (c : Candidate) :
    ((c.buildData).firstName = if c.firstName = JSVal.undef then none else some c.firstName) ∧
    ((c.buildData).lastName = if c.lastName = JSVal.undef then none else some c.lastName) ∧
    ((c.buildData).email = if c.email = JSVal.undef then none else some c.email) ∧
    ((c.buildData).phone = if c.phone = JSVal.undef then none else some c.phone) ∧
    ((c.buildData).address = if c.address = JSVal.undef then none else some c.address) := by
  rw [buildData_eq]
  refine ⟨?_, ?_, ?_, ?_, ?_⟩
  · by_cases h : c.firstName = JSVal.undef <;> simp [h]
  · by_cases h : c.lastName = JSVal.undef <;> simp [h]
  · by_cases h : c.email = JSVal.undef <;> simp [h]
  · by_cases h : c.phone = JSVal.undef <;> simp [h]
  · by_cases h : c.address = JSVal.undef <;> simp [h]

/-- C4: any storage failure whose name is not the initialization-error name
and whose code is not P2025 on the update path (uniqueness violations,
validation failures, unrecognized errors) is rethrown by save as the original
error, identity, message and code untouched. -/
theorem claim4_error_passthrough (c : Candidate)
    (storage : StorageCall → Except PrismaError StoredRecord) (e : PrismaError)
    (hs : storage (if c.id.truthy then StorageCall.update c.id c.buildData
                   else StorageCall.create c.buildData) = Except.error e)
    (hname : e.name ≠ "PrismaClientInitializationError")
    (hcode : c.id.truthy = true → e.code ≠ some "P2025") :
    (c.save storage).outcome = Except.error (SaveError.original e) := by
  by_cases hid : c.id.truthy
  · rw [if_pos hid] at hs
    rw [save_update_error_outcome c storage e hid hs, if_neg hname, if_neg (hcode hid)]
  · have hid' : c.id.truthy = false := by simpa using hid
    rw [if_neg hid] at hs
    rw [save_create_error_outcome c storage e hid' hs, if_neg hname]

/-- C4 witness: a duplicate-email uniqueness violation (known request error
P2002) on the insert path is rethrown unchanged, message and code preserved. -/
theorem claim4_error_passthrough_witness :
    (PrismaError.known "Unique constraint failed on the fields: email" "P2002").name ≠
      "PrismaClientInitializationError" ∧
    (candJohn.save storageDuplicateEmail).outcome =
      Except.error (SaveError.original
        (PrismaError.known "Unique constraint failed on the fields: email" "P2002")) :=
  ⟨by decide,
   claim4_error_passthrough candJohn storageDuplicateEmail
     (PrismaError.known "Unique constraint failed on the fields: email" "P2002")
     rfl (by decide) (by decide)⟩

/-- C5: whenever the storage call issued by save — insert or update alike —
rejects with a connection/initialization failure, save rejects with the one
fixed user-facing connection message, whatever the entity content and the
original message text. -/
theorem claim5_connection_failure_fixed_message (c : Candidate)
    (storage : StorageCall → Except PrismaError StoredRecord) (m ec : String)
    (hs : storage (if c.id.truthy then StorageCall.update c.id c.buildData
                   else StorageCall.create c.buildData)
            = Except.error (PrismaError.initialization m ec)) :
    (c.save storage).outcome =
      Except.error (SaveError.normalized connectionErrorMessage) := by
  by_cases hid : c.id.truthy
  · rw [if_pos hid] at hs
    rw [save_update_error_outcome c storage _ hid hs]
    simp [PrismaError.name]
  · have hid' : c.id.truthy = false := by simpa using hid
    rw [if_neg hid] at hs
    rw [save_create_error_outcome c storage _ hid' hs]
    simp [PrismaError.name]

/-- C5 witness: the connection failure is normalized to the fixed message on
the update path of the identified candidate. -/
theorem claim5_connection_failure_fixed_message_witness :
    (cand42.save storageInitFail).outcome =
      Except.error (SaveError.normalized connectionErrorMessage) :=
  claim5_connection_failure_fixed_message cand42 storageInitFail
    "Cannot reach database server" "P1001" rfl

/-- C6: when the update call issued for a truthy identity rejects with a
record-not-found known request error (code P2025), save rejects with the
fixed record-not-found message instead of the original storage error. -/
theorem claim6_update_not_found_fixed_message (c : Candidate)
    (storage : StorageCall → Except PrismaError StoredRecord) (m : String)
    (hid : c.id.truthy = true)
    (hs : storage (StorageCall.update c.id c.buildData) =
            Except.error (PrismaError.known m "P2025")) :
    (c.save storage).outcome =
      Except.error (SaveError.normalized recordNotFoundMessage) := by
  rw [save_update_error_outcome c storage _ hid hs]
  simp [PrismaError.name, PrismaError.code]

/-- C6 witness: updating the non-existent identity 42 under a storage layer
rejecting with P2025 yields the fixed record-not-found message. -/
theorem claim6_update_not_found_fixed_message_witness :
    cand42.id.truthy = true ∧
    (cand42.save storageNotFound).outcome =
      Except.error (SaveError.normalized recordNotFoundMessage) :=
  ⟨by decide,
   claim6_update_not_found_fixed_message cand42 storageNotFound
     "Record to update not found." (by decide) rfl⟩

/-- C7: the constructor is a pure data-shaping step: each scalar of the bag
(identity included) reads back verbatim from the constructed entity — present
or absent alike — and each collection reads back as the supplied list when
present (order and items untouched) and as the empty list when absent. -/
theorem claim7_constructor_roundtrip (d : CandidateData) :
    (Candidate.construct d).id = d.id ∧
    (Candidate.construct d).firstName = d.firstName ∧
    (Candidate.construct d).lastName = d.lastName ∧
    (Candidate.construct d).email = d.email ∧
    (Candidate.construct d).phone = d.phone ∧
    (Candidate.construct d).address = d.address ∧
    (∀ l, d.education = some l → (Candidate.construct d).education = l) ∧
    (d.education = none → (Candidate.construct d).education = []) ∧
    (∀ l, d.workExperience = some l → (Candidate.construct d).workExperience = l) ∧
    (d.workExperience = none → (Candidate.construct d).workExperience = []) ∧
    (∀ l, d.resumes = some l → (Candidate.construct d).resumes = l) ∧
    (d.resumes = none → (Candidate.construct d).resumes = []) := by
  refine ⟨rfl, rfl, rfl, rfl, rfl, rfl, ?_, ?_, ?_, ?_, ?_, ?_⟩
  · intro l h; simp [Candidate.construct, h]
  · intro h; simp [Candidate.construct, h]
  · intro l h; simp [Candidate.construct, h]
  · intro h; simp [Candidate.construct, h]
  · intro l h; simp [Candidate.construct, h]
  · intro h; simp [Candidate.construct, h]

/-- The complete field bag of the test data factory, used to exercise the
constructor round trip. -/
def bagJohn : CandidateData :=
  { id := JSVal.undef
    firstName := JSVal.str "John"
    lastName := JSVal.str "Doe"
    email := JSVal.str "john.doe@example.com"
    phone := JSVal.str "+1234567890"
    address := JSVal.str "123 Main St, City, Country"
    education := some [eduHarvard]
    workExperience := none
    resumes := some [resumeJohn] }

/-- C7 witness: on the concrete bag, a present collection reads back as the
supplied list, an absent collection reads back empty, and a scalar reads back
verbatim. -/
theorem claim7_constructor_roundtrip_witness :
    bagJohn.education = some [eduHarvard] ∧
    (Candidate.construct bagJohn).education = [eduHarvard] ∧
    bagJohn.workExperience = none ∧
    (Candidate.construct bagJohn).workExperience = [] ∧
    (Candidate.construct bagJohn).firstName = bagJohn.firstName :=
  ⟨rfl,
   (claim7_constructor_roundtrip bagJohn).2.2.2.2.2.2.1 [eduHarvard] rfl,
   rfl,
   (claim7_constructor_roundtrip bagJohn).2.2.2.2.2.2.2.2.2.1 rfl,
   (claim7_constructor_roundtrip bagJohn).2.1⟩

/-- C8: save never mutates the entity: the entity component of the final
state of the transcribed statement sequence equals the entity passed in, for
every storage behavior and on every path (resolve or reject), and the payload
lives in the separate candidateData component of that state. -/
theorem claim8_save_no_entity_mutation (c : Candidate)
    (storage : StorageCall → Except PrismaError StoredRecord) :
    (c.save storage).post.self = c ∧
    (c.save storage).post.candidateData = c.buildData := by
  rw [save_post_eq c storage]
  constructor
  · rw [buildPayloadState_eq]
  · rfl

/-- C9: on the insert path a known request error with the record-not-found
code P2025 is NOT replaced by the fixed record-not-found message: the create
catch block only recognizes the initialization name, so the error is rethrown
unchanged. -/
theorem claim9_insert_not_found_passthrough (c : Candidate)
    (storage : StorageCall → Except PrismaError StoredRecord) (m : String)
    (hid : c.id.truthy = false)
    (hs : storage (StorageCall.create c.buildData) =
            Except.error (PrismaError.known m "P2025")) :
    (c.save storage).outcome =
      Except.error (SaveError.original (PrismaError.known m "P2025")) := by
  rw [save_create_error_outcome c storage _ hid hs]
  simp [PrismaError.name]

/-- C9 witness: the identityless minimal candidate, inserted against a
storage layer rejecting with P2025, sees the original known error, not the
fixed record-not-found message. -/
theorem claim9_insert_not_found_passthrough_witness :
    candJane.id.truthy = false ∧
    (candJane.save storageNotFound).outcome =
      Except.error (SaveError.original
        (PrismaError.known "Record to update not found." "P2025")) :=
  ⟨by decide,
   claim9_insert_not_found_passthrough candJane storageNotFound
     "Record to update not found." (by decide) rfl⟩

/-- C10: presence for conditional inclusion is strict inequality with
undefined, so an optional scalar explicitly set to null is included: the
payload carries the key with the value null. -/
theorem claim10_null_counts_as_present (c : Candidate)
    (hp : c.phone = JSVal.null) (ha : c.address = JSVal.null) :
    (c.buildData).phone = some JSVal.null ∧
    (c.buildData).address = some JSVal.null := by
  rw [buildData_eq]
  constructor <;> simp [hp, ha]

/-- C10 witness: the candidate with null phone and address gets both keys in
the payload, each with the value null. -/
theorem claim10_null_counts_as_present_witness :
    candNullContact.phone = JSVal.null ∧
    (candNullContact.buildData).phone = some JSVal.null ∧
    (candNullContact.buildData).address = some JSVal.null :=
  ⟨rfl,
   (claim10_null_counts_as_present candNullContact rfl rfl).1,
   (claim10_null_counts_as_present candNullContact rfl rfl).2⟩
